import Mathlib

/-
Verification development for the `azure-prices` tool (src/azure-prices.py).

The program is a single linear pipeline: build an OData-style filter string,
call the Azure retail-prices HTTP endpoint in a loop following next-page
links, and render the accumulated item list in one of four text formats.

Shallow embedding conventions:
* Python dicts of JSON records become association lists `List (String × Value)`
  (insertion-ordered, like Python dicts); a failing subscript `x[y]` becomes an
  `Except`-level `keyError`.
* The HTTP layer is replaced by the mock-page oracle the spec's pagination
  property describes: the k-th GET issued by the loop receives the k-th
  element of a list of prepared `ApiResult`s.
* Printing to stdout is modelled by a `RunResult`: the text written before
  returning or before an uncaught exception, plus the exception if any.
-/

deriving instance DecidableEq for Except

namespace AzurePrices

/-- A JSON scalar as it appears in a price item.  Numeric fields are carried
by their Python/JSON decimal rendering (e.g. "1.5"), which is what both
`str()` and `json.dumps` print for them. -/
inductive Value where
  | vStr (s : String)
  | vNum (s : String)
deriving DecidableEq

/-- A Price Item: one record of the API's `Items` list, an insertion-ordered
mapping of field name to value (a Python dict). -/
abbrev Item := List (String × Value)

/-- Python exceptions the modelled code can raise, plus the mock-oracle
exhaustion marker (the loop asked for one more page than were prepared,
which never happens under the claims' hypotheses). -/
inductive PyError where
  | apiError (msg : String)
  | keyError (key : String)
  | attributeError (msg : String)
  | indexError
  | noMoreResponses
deriving DecidableEq

/-- Observable outcome of running one of the output functions: the text
printed to stdout before finishing, and the exception that escaped, if any. -/
structure RunResult where
  out : String
  err : Option PyError
deriving DecidableEq

/-- Python's `sep.join(xs)`. -/
def pyJoin (sep : String) : List String → String
  | [] => ""
  | [x] => x
  | x :: y :: ys => x ++ sep ++ pyJoin sep (y :: ys)

/-- Python's `str()` on a stored value (numbers already carry their
rendering). -/
def pyStr : Value → String
  | .vStr s => s
  | .vNum s => s

/-- `d[k] = v` on a Python dict kept as an insertion-ordered association
list: replace in place if the key exists, else append. -/
def dictInsert {α : Type} (d : List (String × α)) (k : String) (v : α) :
    List (String × α) :=
  if d.any (fun e => e.1 = k) then
    d.map (fun e => if e.1 = k then (k, v) else e)
  else
    d ++ [(k, v)]

/- ---------------------------------------------------------------------
   Filter Builder (`_build_filter`, src/azure-prices.py lines 67-91)
--------------------------------------------------------------------- -/

/-- One iteration's clause:
`"(%s eq '%s')" % (key, ("' or %s eq '" % key).join(values))`. -/
def buildFilterClause (key : String) (values : List String) : String :=
  "(" ++ key ++ " eq \x27" ++ pyJoin ("\x27 or " ++ key ++ " eq \x27") values ++ "\x27)"

/-- The `for key, values in filter.items()` loop of `_build_filter`,
threading the `built_filter` accumulator; `if built_filter:` is Python
string truthiness, i.e. non-emptiness. -/
def buildFilterLoop : String → List (String × List String) → String
  | acc, [] => acc
  | acc, (key, values) :: rest =>
      buildFilterLoop
        ((if acc = "" then acc else acc ++ " and ") ++ buildFilterClause key values)
        rest

/-- `_build_filter`: a Filter Spec is a dict of property name to list of
wanted values, kept as an insertion-ordered association list.  `if not
filter:` returns the empty string for an empty (or absent, i.e. falsy)
spec. -/
def _build_filter (filterSpec : List (String × List String)) : String :=
  if filterSpec.isEmpty then "" else buildFilterLoop "" filterSpec

/- ---------------------------------------------------------------------
   Paginated Fetcher (`_do_prices_api_call` and `get_azure_prices`,
   src/azure-prices.py lines 36-130)
--------------------------------------------------------------------- -/

/-- The JSON body of one page response: claimed total count, item list,
optional next-page link (`null` becomes `none`). -/
structure PageJson where
  Count : Int
  Items : List Item
  NextPageLink : Option String
deriving DecidableEq

/-- One prepared mock HTTP response: status code, raw body text, and its
decoded JSON. -/
structure ApiResult where
  status_code : Nat
  text : String
  json : PageJson
deriving DecidableEq

/-- The fatal message built at line 56:
`"Non-zero exit code (%d) from api call.  Response body was: %s"`. -/
def apiErrorMessage (r : ApiResult) : String :=
  "Non-zero exit code (" ++ toString r.status_code ++
    ") from api call.  Response body was: " ++ r.text

/-- The warning logged at line 63 when the claimed count disagrees with the
item-list length (arguments in the source's order: actual length first,
claimed count second). -/
def countWarning (js : PageJson) : String :=
  "Azure API call did not return the number of items (" ++
    toString js.Items.length ++ ") it said it found (" ++ toString js.Count ++ ")"

/-- Warnings `_do_prices_api_call` logs for one successful page. -/
def pageWarnings (r : ApiResult) : List String :=
  if r.json.Count ≠ (r.json.Items.length : Int) then [countWarning r.json] else []

/-- `_do_prices_api_call` applied to the response the mock supplies for this
GET: non-200 status raises `AzurePricesApiError` with the status code and
raw body in the message; otherwise the count/length sanity check logs a
warning (non-fatal) and the decoded JSON is returned. -/
def _do_prices_api_call (result : ApiResult) :
    Except PyError (List String × PageJson) :=
  if result.status_code ≠ 200 then
    .error (.apiError (apiErrorMessage result))
  else
    .ok (pageWarnings result, result.json)

/-- `next_page.split('?', 1)[1]`: everything after the first `?`, or the
`IndexError` marker (`none`) when the link has no `?`. -/
def afterFirstQ : List Char → Option (List Char)
  | [] => none
  | c :: rest => if c = '?' then some rest else afterFirstQ rest

/-- String-level wrapper for `split('?', 1)[1]`. -/
def splitAfterQ (s : String) : Option String :=
  (afterFirstQ s.data).map String.mk

/-- The initial query string of `get_azure_prices` (lines 107-110):
`currencyCode='<currency>'`, plus `&$filter=<filter>` only when the built
filter is truthy (non-empty). -/
def initial_api_args (limit : List (String × List String)) (currency : String) :
    String :=
  let api_args := "currencyCode=\x27" ++ currency ++ "\x27"
  let f := _build_filter limit
  if f = "" then api_args else api_args ++ "&$filter=" ++ f

/-- The `while next_page:` loop of `get_azure_prices` (lines 112-121), run
against the mock oracle: the k-th GET consumes the k-th prepared response.
Accumulates `result_items`, the warnings logged so far, and the number of
HTTP GETs issued.  `next_page = result['NextPageLink']` is falsy for both
`null` and the empty string; a truthy link yields the next query string via
`split('?', 1)[1]`. -/
def get_azure_prices_loop :
    List ApiResult → String → List Item → List String → Nat →
      Except PyError (List Item × List String × Nat)
  | [], _, _, _, _ => .error .noMoreResponses
  | r :: rest, _api_args, result_items, warns, calls =>
    match _do_prices_api_call r with
    | .error e => .error e
    | .ok (w, js) =>
      match js.NextPageLink with
      | none => .ok (result_items ++ js.Items, warns ++ w, calls + 1)
      | some next_page =>
        if next_page = "" then
          .ok (result_items ++ js.Items, warns ++ w, calls + 1)
        else
          match splitAfterQ next_page with
          | none => .error .indexError
          | some args =>
            get_azure_prices_loop rest args (result_items ++ js.Items)
              (warns ++ w) (calls + 1)

/-- `get_azure_prices` against a list of prepared mock pages: build the
initial query string, loop until the next-page link is falsy, and return
the accumulated items (the function's actual return value, line 130)
together with the logged warnings and the GET count, which the mock makes
observable. -/
def get_azure_prices (pages : List ApiResult)
    (limit : List (String × List String)) (currency : String) :
    Except PyError (List Item × List String × Nat) :=
  get_azure_prices_loop pages (initial_api_args limit currency) [] [] 0

/-- The call site at line 248, `outputters[args.format](get_azure_prices(limit_dict), args.select)`:
a fetch failure propagates before any formatter runs, so nothing is printed. -/
def fetch_and_output
    (outputter : List Item → Option (List String) → RunResult)
    (pages : List ApiResult) (limit : List (String × List String))
    (currency : String) (select : Option (List String)) : RunResult :=
  match get_azure_prices pages limit currency with
  | .error e => ⟨"", some e⟩
  | .ok (items, _, _) => outputter items select

/- ---------------------------------------------------------------------
   Output Formatters (`output_table`, `output_csv`, `output_tsv`,
   `output_json`, src/azure-prices.py lines 152-216)
--------------------------------------------------------------------- -/

/-- The `AttributeError` raised by `data.keys()` when `data` is the list
returned by `get_azure_prices` (a Python list has no `keys` method). -/
def listKeysMsg : String := "\x27list\x27 object has no attribute \x27keys\x27"

/-- The shared prologue of all four formatters:
`if select: output_keys = select / else: output_keys = data.keys()`.
`select` is falsy when it is `None` or the empty list; in either case the
else-branch evaluates `data.keys()` on the item *list*, which raises
`AttributeError`. -/
def getOutputKeys (data : List Item) (select : Option (List String)) :
    Except PyError (List String) :=
  match data, select with
  | _, some keys =>
    if keys = [] then .error (.attributeError listKeysMsg) else .ok keys
  | _, none => .error (.attributeError listKeysMsg)

/-- `x[y]` on an item: the stored value, or `KeyError` when the field is
absent. -/
def lookupItem (x : Item) (y : String) : Except PyError Value :=
  match x.lookup y with
  | some v => .ok v
  | none => .error (.keyError y)

/-- A list comprehension over `Except`: elements in order, first raised
exception wins (Python evaluates comprehensions strictly, left to right). -/
def mapExcept {α β : Type} (f : α → Except PyError β) :
    List α → Except PyError (List β)
  | [] => .ok []
  | a :: as =>
    match f a with
    | .error e => .error e
    | .ok b =>
      match mapExcept f as with
      | .error e => .error e
      | .ok bs => .ok (b :: bs)

/-- Modelled from the spec: the external `tabulate` library (the spec's
external-interfaces section puts its exact alignment out of scope).  Only
the fact that `output_table` fully evaluates the row matrix before printing
matters to any claim; the rendering here is a definite stand-in. -/
def tabulate (rows : List (List Value)) (headers : List String) : String :=
  pyJoin "  " headers ++ "\n" ++
    pyJoin "\n" (rows.map (fun row => pyJoin "  " (row.map pyStr)))

/-- `output_table`: the row matrix `[[x[y] for y in output_keys] for x in data]`
is evaluated (possibly raising `KeyError`) before `print(tabulate(...))`
writes anything. -/
def output_table (data : List Item) (select : Option (List String)) :
    RunResult :=
  match getOutputKeys data select with
  | .error e => ⟨"", some e⟩
  | .ok output_keys =>
    match mapExcept (fun x => mapExcept (fun y => lookupItem x y) output_keys) data with
    | .error e => ⟨"", some e⟩
    | .ok rows => ⟨tabulate rows output_keys ++ "\n", none⟩

/-- One CSV data row: `'"' + '","'.join([str(x[y]) for y in output_keys]) + '"'`. -/
def csvRow (output_keys : List String) (x : Item) : Except PyError String :=
  match mapExcept (fun y => (lookupItem x y).map pyStr) output_keys with
  | .error e => .error e
  | .ok cells => .ok ("\"" ++ pyJoin "\",\"" cells ++ "\"")

/-- `output_csv`: the header row is printed first, then the data rows are all
computed (first missing key raises `KeyError`, after the header is already
out) and printed joined by newlines. -/
def output_csv (data : List Item) (select : Option (List String)) :
    RunResult :=
  match getOutputKeys data select with
  | .error e => ⟨"", some e⟩
  | .ok output_keys =>
    let header := "\"" ++ pyJoin "\",\"" output_keys ++ "\""
    match mapExcept (csvRow output_keys) data with
    | .error e => ⟨header ++ "\n", some e⟩
    | .ok rows => ⟨header ++ "\n" ++ pyJoin "\n" rows ++ "\n", none⟩

/-- One TSV data row: `"\t".join([str(x[y]) for y in output_keys])`. -/
def tsvRow (output_keys : List String) (x : Item) : Except PyError String :=
  match mapExcept (fun y => (lookupItem x y).map pyStr) output_keys with
  | .error e => .error e
  | .ok cells => .ok (pyJoin "\t" cells)

/-- `output_tsv`: same shape as `output_csv` with tab separators and no
quoting. -/
def output_tsv (data : List Item) (select : Option (List String)) :
    RunResult :=
  match getOutputKeys data select with
  | .error e => ⟨"", some e⟩
  | .ok output_keys =>
    let header := pyJoin "\t" output_keys
    match mapExcept (tsvRow output_keys) data with
    | .error e => ⟨header ++ "\n", some e⟩
    | .ok rows => ⟨header ++ "\n" ++ pyJoin "\n" rows ++ "\n", none⟩

/-- String escaping as `json.dumps` performs it for the characters our data
model can contain (quote and backslash; control characters do not occur in
`Value`s drawn from the API's fields as modelled here). -/
def jsonEscape (s : String) : String :=
  s.data.foldl
    (fun acc c =>
      acc ++ (if c = '"' then "\\\"" else if c = '\\' then "\\\\" else String.singleton c))
    ""

/-- `json.dumps` rendering of one scalar: strings quoted and escaped,
numbers printed bare. -/
def jsonValue : Value → String
  | .vStr s => "\"" ++ jsonEscape s ++ "\""
  | .vNum s => s

/-- `json.dumps` (default separators) of a list of objects. -/
def jsonDumps (objs : List Item) : String :=
  "[" ++
    pyJoin ", "
      (objs.map (fun o =>
        "\x7b" ++
          pyJoin ", "
            (o.map (fun e => "\"" ++ jsonEscape e.1 ++ "\": " ++ jsonValue e.2)) ++
          "\x7d")) ++
    "]"

/-- The dict comprehension `{y: x[y] for y in output_keys}` for one item
(duplicate selected keys collapse as in a Python dict). -/
def selectObject (x : Item) (output_keys : List String) : Except PyError Item :=
  match mapExcept (fun y => (lookupItem x y).map (fun v => (y, v))) output_keys with
  | .error e => .error e
  | .ok pairs => .ok (pairs.foldl (fun d e => dictInsert d e.1 e.2) [])

/-- The list comprehension `[{y: x[y] for y in output_keys} for x in data]`
of `output_json`. -/
def selectObjects (data : List Item) (output_keys : List String) :
    Except PyError (List Item) :=
  mapExcept (fun x => selectObject x output_keys) data

/-- `output_json`: one `print(json.dumps(...))`, whose argument is fully
evaluated first, so a `KeyError` escapes before anything is printed. -/
def output_json (data : List Item) (select : Option (List String)) :
    RunResult :=
  match getOutputKeys data select with
  | .error e => ⟨"", some e⟩
  | .ok output_keys =>
    match selectObjects data output_keys with
    | .error e => ⟨"", some e⟩
    | .ok objs => ⟨jsonDumps objs ++ "\n", none⟩

/- ---------------------------------------------------------------------
   Formatter Registry (`find_outputters`, src/azure-prices.py lines 132-150)
--------------------------------------------------------------------- -/

/-- The module's member names as `inspect.getmembers(sys.modules[__name__])`
returns them at the call site in `__main__`: name-sorted (ASCII: capitals,
then `_`, then lower case).  Dunder members are omitted here since none can
pass the `output_` prefix test. -/
def moduleMembers : List String :=
  ["AzurePricesApiError", "Enum", "_build_filter", "_do_prices_api_call",
   "argparse", "auto", "defaultdict", "docs_url", "find_outputters",
   "get_azure_prices", "inspect", "json", "log_levels", "logger", "logging",
   "output_csv", "output_json", "output_table", "output_tsv", "parser",
   "requests", "sys", "tabulate"]

/-- The optional `user_facing_name` attribute of a module member: no
function in this module sets one, so the lookup always raises
`AttributeError` (modelled as `none`) and the prefix-stripped fallback is
used. -/
def user_facing_name (_memberName : String) : Option String := none

/-- `find_outputters`: scan the module members for names starting with
`output_`, register each under its `user_facing_name` attribute if it has
one and otherwise under the name with the prefix stripped; `result` is a
Python dict keyed by that lookup name, valued by the function (identified
here by its module member name). -/
def find_outputters : List (String × String) :=
  moduleMembers.foldl
    (fun result n =>
      if "output_".data.isPrefixOf n.data then
        let method_name :=
          match user_facing_name n with
          | some m => m
          | none => n.drop "output_".length
        dictInsert result method_name n
      else result)
    []

/-- The function object a registered member name denotes, tying registry
entries back to the formatter definitions above. -/
def outputterImpl (memberName : String) :
    Option (List Item → Option (List String) → RunResult) :=
  if memberName = "output_table" then some output_table
  else if memberName = "output_csv" then some output_csv
  else if memberName = "output_tsv" then some output_tsv
  else if memberName = "output_json" then some output_json
  else none

/-- `outputters[name]` followed by the call: look the name up in the
registry and resolve it to the formatter it registers. -/
def dispatch_outputter (name : String) :
    Option (List Item → Option (List String) → RunResult) :=
  (find_outputters.lookup name).bind outputterImpl

/- ---------------------------------------------------------------------
   Specification-side definitions and counting helpers
--------------------------------------------------------------------- -/

/-- The per-property clause shape the spec describes (testable property for
the Filter Builder): `M_i` eq comparisons joined by " or ", wrapped in
parentheses.  This definition follows the spec's words, to be compared
with `buildFilterClause` from the source. -/
def clauseSpecShape (e : String × List String) : String :=
  "(" ++ pyJoin " or " (e.2.map (fun v => e.1 ++ " eq \x27" ++ v ++ "\x27")) ++ ")"

/-- Number of (possibly overlapping) occurrences of `pat` in a character
list; used to count `eq` comparisons in a built filter string. -/
def countOcc (pat : List Char) : List Char → Nat
  | [] => 0
  | c :: rest => (if pat.isPrefixOf (c :: rest) then 1 else 0) + countOcc pat rest

/-- Number of single-quote characters in a string. -/
def countQuote (s : String) : Nat := s.data.count '\x27'

/- ---------------------------------------------------------------------
   Helper lemmas about strings and the filter builder
--------------------------------------------------------------------- -/

theorem append_ne_empty_of_left (a b : String) (h : a ≠ "") : a ++ b ≠ "" := by
  intro hc
  apply h
  have hd := congrArg String.data hc
  rw [String.data_append] at hd
  exact String.ext (List.append_eq_nil.mp hd).1

theorem buildFilterClause_ne_empty (k : String) (vs : List String) :
    buildFilterClause k vs ≠ "" := by
  unfold buildFilterClause
  apply append_ne_empty_of_left
  apply append_ne_empty_of_left
  apply append_ne_empty_of_left
  apply append_ne_empty_of_left
  decide

theorem empty_append_str (s : String) : "" ++ s = s := by
  apply String.ext
  rw [String.data_append]
  rfl

/-- Joining `v :: vs` with the `"' or %s eq '"` separator and wrapping with
the template's fixed parts is the same as joining the individual
`key eq 'v'` comparisons with `" or "`. -/
theorem clause_join (k : String) (vs : List String) (v : String) :
    k ++ " eq \x27" ++ pyJoin ("\x27 or " ++ k ++ " eq \x27") (v :: vs) ++ "\x27" =
    pyJoin " or " ((v :: vs).map (fun w => k ++ " eq \x27" ++ w ++ "\x27")) := by
  induction vs generalizing v with
  | nil => simp [pyJoin]
  | cons w ws ih =>
    have hsplit : ("\x27 or " : String) = "\x27" ++ " or " := rfl
    have ih2 := ih w
    simp only [pyJoin, List.map_cons] at ih2 ⊢
    rw [← ih2, hsplit]
    simp only [String.append_assoc]

theorem buildFilterClause_eq_spec (k : String) (vs : List String) (h : vs ≠ []) :
    buildFilterClause k vs = clauseSpecShape (k, vs) := by
  match vs, h with
  | v :: vs, _ =>
    unfold buildFilterClause clauseSpecShape
    rw [← clause_join k vs v]
    have hsplit : ("\x27)" : String) = "\x27" ++ ")" := rfl
    rw [hsplit]
    simp only [String.append_assoc]

theorem pyJoin_glue (sep a b : String) (l : List String) :
    pyJoin sep ((a ++ sep ++ b) :: l) = a ++ sep ++ pyJoin sep (b :: l) := by
  cases l with
  | nil => simp [pyJoin]
  | cons c cs => simp [pyJoin, String.append_assoc]

theorem buildFilterLoop_acc (l : List (String × List String)) :
    ∀ acc, acc ≠ "" →
      buildFilterLoop acc l =
        pyJoin " and " (acc :: l.map (fun e => buildFilterClause e.1 e.2)) := by
  induction l with
  | nil => intro acc _; simp [buildFilterLoop, pyJoin]
  | cons e rest ih =>
    obtain ⟨k, vs⟩ := e
    intro acc h
    have hacc2 : acc ++ " and " ++ buildFilterClause k vs ≠ "" :=
      append_ne_empty_of_left _ _ (append_ne_empty_of_left _ _ h)
    simp only [buildFilterLoop, if_neg h]
    rw [ih _ hacc2, pyJoin_glue]
    simp [pyJoin]

/-- `_build_filter` is the `" and "`-join of the per-property template
clauses, in the spec's insertion order. -/
theorem build_filter_eq_join_clauses (f : List (String × List String)) :
    _build_filter f =
      pyJoin " and " (f.map (fun e => buildFilterClause e.1 e.2)) := by
  cases f with
  | nil => rfl
  | cons e rest =>
    obtain ⟨k, vs⟩ := e
    unfold _build_filter
    rw [if_neg (by simp)]
    have hstep : buildFilterLoop "" ((k, vs) :: rest) =
        buildFilterLoop (buildFilterClause k vs) rest := by
      simp [buildFilterLoop, empty_append_str]
    rw [hstep, buildFilterLoop_acc rest _ (buildFilterClause_ne_empty k vs)]
    simp

/- ---------------------------------------------------------------------
   Claims about the Filter Builder (C3, C7, C8)
--------------------------------------------------------------------- -/

/-- Claim C3, counterexample: for the Filter Spec `{"a": []}` (one property
with zero values) the built filter is `(a eq '')` — a clause that contains
one `eq` comparison, not the zero comparisons the claim's "exactly M_i eq
comparisons" demands, and differs from the spec-shaped clause for zero
values. -/
theorem build_filter_zero_values_counterexample :
    _build_filter [("a", ([] : List String))] = "(a eq \x27\x27)" ∧
    _build_filter [("a", ([] : List String))] ≠
      pyJoin " and " ([("a", ([] : List String))].map clauseSpecShape) ∧
    countOcc " eq ".data (_build_filter [("a", ([] : List String))]).data = 1 := by
  refine ⟨by decide, by decide, by decide⟩

/-- Claim C3 (amended: every property must have at least one value —
forced by the counterexample, since the source's template prints one
`eq ''` comparison for an empty value list): for every such Filter Spec
with N properties, `_build_filter` is exactly the `" and "`-join of N
clauses, one per property in insertion order, where the clause for a
property with M_i values is the `" or "`-join of its M_i `eq`
comparisons wrapped in parentheses. -/
theorem build_filter_clause_structure (f : List (String × List String))
    (hvals : ∀ e ∈ f, e.2 ≠ []) :
    _build_filter f = pyJoin " and " (f.map clauseSpecShape) ∧
    (f.map clauseSpecShape).length = f.length ∧
    ∀ e ∈ f, (e.2.map (fun v => e.1 ++ " eq \x27" ++ v ++ "\x27")).length = e.2.length := by
  refine ⟨?_, by simp, fun _ _ => by simp⟩
  rw [build_filter_eq_join_clauses]
  congr 1
  apply List.map_congr_left
  intro e he
  exact buildFilterClause_eq_spec e.1 e.2 (hvals e he)

theorem build_filter_clause_structure_witness :
    (∀ e ∈ [("serviceName", ["Virtual Machines"]),
            ("armRegionName", ["ukwest", "uksouth"])], e.2 ≠ []) ∧
    _build_filter [("serviceName", ["Virtual Machines"]),
                   ("armRegionName", ["ukwest", "uksouth"])] =
      pyJoin " and " ([("serviceName", ["Virtual Machines"]),
                       ("armRegionName", ["ukwest", "uksouth"])].map clauseSpecShape) :=
  ⟨by decide,
   (build_filter_clause_structure
      [("serviceName", ["Virtual Machines"]), ("armRegionName", ["ukwest", "uksouth"])]
      (by decide)).1⟩

/-- Claim C7: an empty Filter Spec builds the empty filter string, and the
initial query string then consists of the `currencyCode` parameter only —
the `$filter` parameter is omitted entirely.  (An absent spec is falsy in
Python exactly like an empty one and takes the same `if not filter:`
branch.) -/
theorem empty_filter_spec_omits_filter (currency : String) :
    _build_filter [] = "" ∧
    initial_api_args [] currency = "currencyCode=\x27" ++ currency ++ "\x27" := by
  exact ⟨rfl, rfl⟩

/-- Number of `eq` comparisons the source's template emits for a Filter
Spec: one per value, and the degenerate `eq ''` comparison for a property
with an empty value list. -/
def numComparisons (f : List (String × List String)) : Nat :=
  (f.map (fun e => max e.2.length 1)).sum

/-- Quote characters contributed by the property names themselves: each
key is printed once per comparison of its clause. -/
def keyQuoteContribution (f : List (String × List String)) : Nat :=
  (f.map (fun e => max e.2.length 1 * countQuote e.1)).sum

theorem str_append_empty (s : String) : s ++ "" = s := by
  apply String.ext
  rw [String.data_append]
  exact List.append_nil s.data

theorem countQuote_append (a b : String) :
    countQuote (a ++ b) = countQuote a + countQuote b := by
  simp [countQuote, String.data_append, List.count_append]

theorem countQuote_pyJoin_cons (sep x : String) (l : List String) :
    countQuote (pyJoin sep (x :: l)) =
      countQuote x + l.length * countQuote sep + (l.map countQuote).sum := by
  induction l generalizing x with
  | nil => simp [pyJoin]
  | cons y ys ih =>
    simp only [pyJoin]
    rw [countQuote_append, countQuote_append, ih y]
    simp only [List.length_cons, List.map_cons, List.sum_cons]
    ring

/-- Exact quote count of one template clause: every value's own quotes plus
`2 + countQuote key` per emitted comparison. -/
theorem countQuote_clause (k : String) (vs : List String) :
    countQuote (buildFilterClause k vs) =
      (vs.map countQuote).sum + max vs.length 1 * (2 + countQuote k) := by
  cases vs with
  | nil =>
    unfold buildFilterClause
    have hA : countQuote "(" = 0 := rfl
    have hB : countQuote " eq \x27" = 1 := rfl
    have hC : countQuote "\x27)" = 1 := rfl
    have hJ : countQuote (pyJoin ("\x27 or " ++ k ++ " eq \x27") []) = 0 := rfl
    rw [countQuote_append, countQuote_append, countQuote_append, countQuote_append,
        hA, hB, hC, hJ]
    simp
    omega
  | cons v vs2 =>
    unfold buildFilterClause
    rw [countQuote_append, countQuote_append, countQuote_append, countQuote_append,
        countQuote_pyJoin_cons, countQuote_append, countQuote_append]
    have h1 : countQuote "(" = 0 := rfl
    have h2 : countQuote " eq \x27" = 1 := rfl
    have h3 : countQuote "\x27)" = 1 := rfl
    have h4 : countQuote "\x27 or " = 1 := rfl
    rw [h1, h2, h3, h4]
    simp only [List.map_cons, List.sum_cons, List.length_cons]
    have hmax : max (vs2.length + 1) 1 = vs2.length + 1 := by omega
    rw [hmax]
    ring

theorem countQuote_join_clauses (f : List (String × List String)) :
    countQuote (pyJoin " and " (f.map (fun e => buildFilterClause e.1 e.2))) =
      ((f.map (fun e => buildFilterClause e.1 e.2)).map countQuote).sum := by
  cases f with
  | nil => rfl
  | cons e rest =>
    rw [List.map_cons, countQuote_pyJoin_cons]
    have hand : countQuote " and " = 0 := rfl
    rw [hand]
    simp

theorem sum_map_add2 {α : Type} (A B : α → Nat) (l : List α) :
    (l.map (fun x => A x + B x)).sum = (l.map A).sum + (l.map B).sum := by
  induction l with
  | nil => rfl
  | cons x xs ih =>
    simp only [List.map_cons, List.sum_cons, ih]
    omega

theorem sum_map_two_mul {α : Type} (A : α → Nat) (l : List α) :
    (l.map (fun x => 2 * A x)).sum = 2 * (l.map A).sum := by
  induction l with
  | nil => rfl
  | cons x xs ih =>
    simp only [List.map_cons, List.sum_cons, ih]
    omega

/-- Exact quote count of a whole built filter: the values' own quote
characters on top of the two delimiter quotes per comparison and the
quotes the keys contribute. -/
theorem countQuote_build_filter (f : List (String × List String)) :
    countQuote (_build_filter f) =
      (f.map (fun e => (e.2.map countQuote).sum)).sum +
        2 * numComparisons f + keyQuoteContribution f := by
  rw [build_filter_eq_join_clauses, countQuote_join_clauses, List.map_map]
  have hpt : f.map (countQuote ∘ fun e => buildFilterClause e.1 e.2) =
      f.map (fun e => (e.2.map countQuote).sum +
        (2 * max e.2.length 1 + max e.2.length 1 * countQuote e.1)) := by
    apply List.map_congr_left
    intro e _
    show countQuote (buildFilterClause e.1 e.2) = _
    rw [countQuote_clause]
    ring
  rw [hpt,
    sum_map_add2 (fun e => (e.2.map countQuote).sum)
      (fun e => 2 * max e.2.length 1 + max e.2.length 1 * countQuote e.1) f,
    sum_map_add2 (fun e => 2 * max e.2.length 1)
      (fun e => max e.2.length 1 * countQuote e.1) f,
    sum_map_two_mul (fun e => max e.2.length 1) f]
  unfold numComparisons keyQuoteContribution
  omega

theorem mem_le_map_sum {α : Type} (g : α → Nat) {l : List α} {a : α}
    (h : a ∈ l) : g a ≤ (l.map g).sum := by
  induction l with
  | nil => cases h
  | cons x xs ih =>
    rcases List.mem_cons.mp h with hh | hh
    · subst hh
      simp only [List.map_cons, List.sum_cons]
      exact Nat.le_add_right _ _
    · simp only [List.map_cons, List.sum_cons]
      exact le_trans (ih hh) (Nat.le_add_left _ _)

/-- A value of the separator-join appears in its own `key eq 'v'`
comparison context inside the joined core of a clause. -/
theorem join_contains_comparison (k : String) (vs : List String) (v : String)
    (hv : v ∈ vs) :
    ∃ a b,
      k ++ " eq \x27" ++ pyJoin ("\x27 or " ++ k ++ " eq \x27") vs ++ "\x27" =
        a ++ (k ++ " eq \x27" ++ v ++ "\x27") ++ b := by
  induction vs with
  | nil => cases hv
  | cons w ws ih =>
    rcases List.mem_cons.mp hv with hh | hh
    · subst hh
      cases ws with
      | nil =>
        exact ⟨"", "", by
          simp [pyJoin, empty_append_str, str_append_empty, String.append_assoc]⟩
      | cons u us =>
        refine ⟨"", " or " ++ (k ++ " eq \x27" ++
          pyJoin ("\x27 or " ++ k ++ " eq \x27") (u :: us) ++ "\x27"), ?_⟩
        have hsplit : ("\x27 or " : String) = "\x27" ++ " or " := rfl
        simp only [pyJoin]
        rw [hsplit]
        simp only [empty_append_str, String.append_assoc]
    · cases ws with
      | nil => cases hh
      | cons u us =>
        obtain ⟨a, b, hab⟩ := ih hh
        refine ⟨k ++ " eq \x27" ++ w ++ "\x27" ++ " or " ++ a, b, ?_⟩
        have hsplit : ("\x27 or " : String) = "\x27" ++ " or " := rfl
        have hL : k ++ " eq \x27" ++
            pyJoin ("\x27 or " ++ k ++ " eq \x27") (w :: u :: us) ++ "\x27" =
            (k ++ " eq \x27" ++ w ++ "\x27" ++ " or ") ++
              (k ++ " eq \x27" ++
                pyJoin ("\x27 or " ++ k ++ " eq \x27") (u :: us) ++ "\x27") := by
          simp only [pyJoin]
          rw [hsplit]
          simp only [String.append_assoc]
        rw [hL, hab]
        simp only [String.append_assoc]

/-- A value of a Filter Spec entry appears in its own `key eq 'v'`
comparison context inside that entry's clause. -/
theorem clause_contains (k : String) (vs : List String) (v : String)
    (hv : v ∈ vs) :
    ∃ a b, buildFilterClause k vs =
      a ++ (k ++ " eq \x27" ++ v ++ "\x27") ++ b := by
  obtain ⟨a, b, hab⟩ := join_contains_comparison k vs v hv
  refine ⟨"(" ++ a, b ++ ")", ?_⟩
  have hre : buildFilterClause k vs =
      "(" ++ (k ++ " eq \x27" ++
        pyJoin ("\x27 or " ++ k ++ " eq \x27") vs ++ "\x27") ++ ")" := by
    unfold buildFilterClause
    have hsplit : ("\x27)" : String) = "\x27" ++ ")" := rfl
    rw [hsplit]
    simp only [String.append_assoc]
  rw [hre, hab]
  simp only [String.append_assoc]

theorem pyJoin_mem_infix (sep : String) {l : List String} {s : String}
    (h : s ∈ l) : ∃ a b, pyJoin sep l = a ++ s ++ b := by
  induction l with
  | nil => cases h
  | cons x xs ih =>
    rcases List.mem_cons.mp h with hh | hh
    · subst hh
      cases xs with
      | nil =>
        exact ⟨"", "", by simp [pyJoin, empty_append_str, str_append_empty]⟩
      | cons y ys =>
        exact ⟨"", sep ++ pyJoin sep (y :: ys), by
          simp only [pyJoin, empty_append_str, String.append_assoc]⟩
    · cases xs with
      | nil => cases hh
      | cons y ys =>
        obtain ⟨a, b, hab⟩ := ih hh
        refine ⟨x ++ sep ++ a, b, ?_⟩
        simp only [pyJoin]
        rw [hab]
        simp only [String.append_assoc]

/-- Claim C8: the Filter Builder escapes nothing.  For every Filter Spec
containing a value with an embedded single-quote character, that value is
inserted verbatim into the built filter string (it occurs there inside its
own `key eq 'value'` comparison, unaltered), and the result is
syntactically malformed: its quote-character count strictly exceeds the
two delimiter quotes per emitted comparison plus whatever quotes the
property names themselves contribute, so some quote lands inside a quoted
literal.  The builder is a total function and raises no error. -/
theorem build_filter_quote_verbatim (f : List (String × List String))
    (k : String) (vs : List String) (v : String)
    (hkv : (k, vs) ∈ f) (hv : v ∈ vs) (hq : '\x27' ∈ v.data) :
    (∃ a b, _build_filter f = a ++ (k ++ " eq \x27" ++ v ++ "\x27") ++ b) ∧
    2 * numComparisons f + keyQuoteContribution f <
      countQuote (_build_filter f) := by
  constructor
  · obtain ⟨a1, b1, h1⟩ := clause_contains k vs v hv
    have hmem : buildFilterClause k vs ∈
        f.map (fun e => buildFilterClause e.1 e.2) :=
      List.mem_map_of_mem (fun e => buildFilterClause e.1 e.2) hkv
    obtain ⟨a2, b2, h2⟩ := pyJoin_mem_infix " and " hmem
    refine ⟨a2 ++ a1, b1 ++ b2, ?_⟩
    rw [build_filter_eq_join_clauses, h2, h1]
    simp only [String.append_assoc]
  · have hc := countQuote_build_filter f
    have h1 : countQuote v ≤ (vs.map countQuote).sum :=
      mem_le_map_sum countQuote hv
    have h2 : (vs.map countQuote).sum ≤
        (f.map (fun e => (e.2.map countQuote).sum)).sum :=
      mem_le_map_sum (fun e => (e.2.map countQuote).sum) hkv
    have h3 : 0 < countQuote v := List.count_pos_iff.mpr hq
    omega

theorem build_filter_quote_verbatim_witness :
    ("meterName", ["O\x27Brien", "Standard"]) ∈
      [("serviceName", ["Virtual Machines"]),
       ("meterName", ["O\x27Brien", "Standard"])] ∧
    "O\x27Brien" ∈ ["O\x27Brien", "Standard"] ∧
    '\x27' ∈ ("O\x27Brien" : String).data ∧
    ((∃ a b,
        _build_filter [("serviceName", ["Virtual Machines"]),
                       ("meterName", ["O\x27Brien", "Standard"])] =
          a ++ ("meterName" ++ " eq \x27" ++ "O\x27Brien" ++ "\x27") ++ b) ∧
      2 * numComparisons [("serviceName", ["Virtual Machines"]),
                          ("meterName", ["O\x27Brien", "Standard"])] +
          keyQuoteContribution [("serviceName", ["Virtual Machines"]),
                                ("meterName", ["O\x27Brien", "Standard"])] <
        countQuote (_build_filter [("serviceName", ["Virtual Machines"]),
                                   ("meterName", ["O\x27Brien", "Standard"])])) :=
  ⟨by decide, by decide, by decide,
   build_filter_quote_verbatim
     [("serviceName", ["Virtual Machines"]), ("meterName", ["O\x27Brien", "Standard"])]
     "meterName" ["O\x27Brien", "Standard"] "O\x27Brien"
     (by decide) (by decide) (by decide)⟩

/- ---------------------------------------------------------------------
   Claims about the Paginated Fetcher (C1, C2, C6)
--------------------------------------------------------------------- -/

/-- The mock-page sequence of the spec's pagination property: every page is
a success response, every non-final page carries a next-page link (a URL,
so it contains the `?` the source splits on), and the final page's link is
null. -/
inductive MockChain : List ApiResult → Prop where
  | last (r : ApiResult) (h200 : r.status_code = 200)
      (hend : r.json.NextPageLink = none) : MockChain [r]
  | cons (r : ApiResult) (rest : List ApiResult) (h200 : r.status_code = 200)
      (pre post : String)
      (hlink : r.json.NextPageLink = some (pre ++ "?" ++ post))
      (hrest : MockChain rest) : MockChain (r :: rest)

/-- A run in which some page fails: a prefix of linked success pages
followed by a response whose status is not 200 (pages after it, if any,
are unconstrained — they are never fetched). -/
inductive FailChain : List ApiResult → ApiResult → Prop where
  | here (r : ApiResult) (rest : List ApiResult) (hfail : r.status_code ≠ 200) :
      FailChain (r :: rest) r
  | step (r : ApiResult) (rest : List ApiResult) (bad : ApiResult)
      (h200 : r.status_code = 200) (pre post : String)
      (hlink : r.json.NextPageLink = some (pre ++ "?" ++ post))
      (htail : FailChain rest bad) : FailChain (r :: rest) bad

theorem api_call_ok (r : ApiResult) (h : r.status_code = 200) :
    _do_prices_api_call r = .ok (pageWarnings r, r.json) := by
  simp [_do_prices_api_call, h]

theorem api_call_fail (r : ApiResult) (h : r.status_code ≠ 200) :
    _do_prices_api_call r = .error (.apiError (apiErrorMessage r)) := by
  simp [_do_prices_api_call, h]

theorem q_append_ne_empty (pre post : String) : pre ++ "?" ++ post ≠ "" := by
  intro hc
  have hd := congrArg String.data hc
  rw [String.data_append, String.data_append] at hd
  have h2 := (List.append_eq_nil.mp (List.append_eq_nil.mp hd).1).2
  exact absurd h2 (by decide)

theorem afterFirstQ_isSome (l2 : List Char) :
    ∀ l1, ∃ t, afterFirstQ (l1 ++ '?' :: l2) = some t
  | [] => ⟨l2, by simp [afterFirstQ]⟩
  | c :: l1 => by
    by_cases hc : c = '?'
    · exact ⟨l1 ++ '?' :: l2, by simp [afterFirstQ, hc]⟩
    · obtain ⟨t, ht⟩ := afterFirstQ_isSome l2 l1
      exact ⟨t, by simp [afterFirstQ, hc, ht]⟩

theorem splitAfterQ_q (pre post : String) :
    ∃ t, splitAfterQ (pre ++ "?" ++ post) = some t := by
  obtain ⟨t, ht⟩ := afterFirstQ_isSome post.data pre.data
  refine ⟨String.mk t, ?_⟩
  have hq : ("?" : String).data = ['?'] := rfl
  have hdata : (pre ++ "?" ++ post).data = pre.data ++ '?' :: post.data := by
    rw [String.data_append, String.data_append, hq]
    simp
  unfold splitAfterQ
  rw [hdata, ht]
  rfl

/-- Running the loop against a well-formed mock chain appends every page's
items and warnings in page order and issues one GET per page. -/
theorem loop_mock_chain {ps : List ApiResult} (h : MockChain ps) :
    ∀ args acc warns calls,
      get_azure_prices_loop ps args acc warns calls =
        .ok (acc ++ (ps.map (fun r => r.json.Items)).flatten,
             warns ++ (ps.map pageWarnings).flatten,
             calls + ps.length) := by
  induction h with
  | last r h200 hend =>
    intro args acc warns calls
    simp [get_azure_prices_loop, api_call_ok r h200, hend]
  | cons r rest h200 pre post hlink hrest ih =>
    intro args acc warns calls
    obtain ⟨t, ht⟩ := splitAfterQ_q pre post
    rw [get_azure_prices_loop, api_call_ok r h200]
    simp only [hlink, if_neg (q_append_ne_empty pre post), ht]
    rw [ih]
    simp [List.append_assoc]
    omega

/-- Running the loop against a chain whose page `bad` fails aborts with the
`AzurePricesApiError` built from `bad`, whatever was accumulated before. -/
theorem loop_fail_chain {ps : List ApiResult} {bad : ApiResult}
    (h : FailChain ps bad) :
    ∀ args acc warns calls,
      get_azure_prices_loop ps args acc warns calls =
        .error (.apiError (apiErrorMessage bad)) := by
  induction h with
  | here r rest hfail =>
    intro args acc warns calls
    rw [get_azure_prices_loop, api_call_fail r hfail]
  | step r rest bad h200 pre post hlink htail ih =>
    intro args acc warns calls
    obtain ⟨t, ht⟩ := splitAfterQ_q pre post
    rw [get_azure_prices_loop, api_call_ok r h200]
    simp only [hlink, if_neg (q_append_ne_empty pre post), ht]
    rw [ih]

/-- Claim C1: for every finite mock-page sequence in which each non-final
page carries a next-page link and the final page's link is null,
`get_azure_prices` returns the concatenation of all pages' `Items` lists in
page order, issues exactly one HTTP GET per page (the observed call count
equals the number of pages), and terminates after the final page (it
returns normally without asking the oracle for another response). -/
theorem get_azure_prices_pagination (ps : List ApiResult) (h : MockChain ps)
    (limit : List (String × List String)) (currency : String) :
    ∃ warns,
      get_azure_prices ps limit currency =
        .ok ((ps.map (fun r => r.json.Items)).flatten, warns, ps.length) := by
  refine ⟨(ps.map pageWarnings).flatten, ?_⟩
  unfold get_azure_prices
  rw [loop_mock_chain h]
  simp

def c1page1 : ApiResult :=
  ⟨200, "", ⟨1, [[("skuId", .vStr "A")]],
    some ("https://prices.azure.com/api/retail/prices" ++ "?" ++ "$skip=100")⟩⟩

def c1page2 : ApiResult := ⟨200, "", ⟨1, [[("skuId", .vStr "B")]], none⟩⟩

theorem get_azure_prices_pagination_witness :
    ∃ warns,
      get_azure_prices [c1page1, c1page2] [] "GBP" =
        .ok (([c1page1, c1page2].map (fun r => r.json.Items)).flatten, warns, 2) :=
  get_azure_prices_pagination [c1page1, c1page2]
    (MockChain.cons c1page1 [c1page2] rfl
      "https://prices.azure.com/api/retail/prices" "$skip=100" rfl
      (MockChain.last c1page2 rfl rfl))
    [] "GBP"

/-- Claim C2: a non-200 response on any page — also after earlier pages
succeeded — aborts the whole fetch with the `AzurePricesApiError` whose
message carries the status code and raw response body; no partial item
list is returned, and (through the `__main__` call site) no formatter runs
and nothing is printed. -/
theorem nonsuccess_http_aborts (ps : List ApiResult) (bad : ApiResult)
    (h : FailChain ps bad) (limit : List (String × List String))
    (currency : String) :
    get_azure_prices ps limit currency =
      .error (.apiError ("Non-zero exit code (" ++ toString bad.status_code ++
        ") from api call.  Response body was: " ++ bad.text)) ∧
    ∀ (outputter : List Item → Option (List String) → RunResult)
      (select : Option (List String)),
      fetch_and_output outputter ps limit currency select =
        ⟨"", some (.apiError ("Non-zero exit code (" ++ toString bad.status_code ++
          ") from api call.  Response body was: " ++ bad.text))⟩ := by
  have hget : get_azure_prices ps limit currency =
      .error (.apiError (apiErrorMessage bad)) := loop_fail_chain h _ _ _ _
  rw [apiErrorMessage] at hget
  refine ⟨hget, ?_⟩
  intro outputter select
  simp [fetch_and_output, hget]

def c2page1 : ApiResult :=
  ⟨200, "", ⟨1, [[("skuId", .vStr "A")]], some ("https://x" ++ "?" ++ "page=2")⟩⟩

def c2page2 : ApiResult := ⟨403, "Rate limited", ⟨0, [], none⟩⟩

def c2page3 : ApiResult := ⟨200, "", ⟨1, [[("skuId", .vStr "C")]], none⟩⟩

theorem nonsuccess_http_aborts_witness :
    get_azure_prices [c2page1, c2page2, c2page3] [] "GBP" =
      .error (.apiError ("Non-zero exit code (" ++ toString (403 : Nat) ++
        ") from api call.  Response body was: " ++ "Rate limited")) ∧
    fetch_and_output output_table [c2page1, c2page2, c2page3] [] "GBP" none =
      ⟨"", some (.apiError ("Non-zero exit code (" ++ toString (403 : Nat) ++
        ") from api call.  Response body was: " ++ "Rate limited"))⟩ :=
  ⟨(nonsuccess_http_aborts [c2page1, c2page2, c2page3] c2page2
      (FailChain.step c2page1 [c2page2, c2page3] c2page2 rfl "https://x" "page=2" rfl
        (FailChain.here c2page2 [c2page3] (by decide))) [] "GBP").1,
   (nonsuccess_http_aborts [c2page1, c2page2, c2page3] c2page2
      (FailChain.step c2page1 [c2page2, c2page3] c2page2 rfl "https://x" "page=2" rfl
        (FailChain.here c2page2 [c2page3] (by decide))) [] "GBP").2 output_table none⟩

/-- Claim C6: a page whose claimed `Count` differs from the length of its
`Items` list does not make the fetch fail: its warning is logged, all of
its items still reach the aggregate result, and pagination runs to the end
of the chain (one GET per page, all pages' items concatenated). -/
theorem count_mismatch_warns (ps : List ApiResult) (h : MockChain ps)
    (r : ApiResult) (hr : r ∈ ps)
    (hm : r.json.Count ≠ (r.json.Items.length : Int))
    (limit : List (String × List String)) (currency : String) :
    get_azure_prices ps limit currency =
      .ok ((ps.map (fun p => p.json.Items)).flatten,
           (ps.map pageWarnings).flatten, ps.length) ∧
    countWarning r.json ∈ (ps.map pageWarnings).flatten := by
  constructor
  · unfold get_azure_prices
    rw [loop_mock_chain h]
    simp
  · exact List.mem_flatten.mpr
      ⟨pageWarnings r, List.mem_map_of_mem _ hr, by simp [pageWarnings, hm]⟩

def c6page1 : ApiResult :=
  ⟨200, "", ⟨5, [[("skuId", .vStr "A")]], some ("https://y" ++ "?" ++ "page=2")⟩⟩

def c6page2 : ApiResult := ⟨200, "", ⟨1, [[("skuId", .vStr "B")]], none⟩⟩

theorem count_mismatch_warns_witness :
    get_azure_prices [c6page1, c6page2] [] "GBP" =
      .ok (([c6page1, c6page2].map (fun p => p.json.Items)).flatten,
           ([c6page1, c6page2].map pageWarnings).flatten, 2) ∧
    countWarning c6page1.json ∈ ([c6page1, c6page2].map pageWarnings).flatten :=
  count_mismatch_warns [c6page1, c6page2]
    (MockChain.cons c6page1 [c6page2] rfl "https://y" "page=2" rfl
      (MockChain.last c6page2 rfl rfl))
    c6page1 (by decide) (by decide) [] "GBP"

/- ---------------------------------------------------------------------
   Claims about the Output Formatters (C4, C5, C10)
--------------------------------------------------------------------- -/

/-- Claim C4 (the code contradicts it): with no selection list the source's
`output_keys = data.keys()` runs on the item *list* returned by
`get_azure_prices`, so every formatter raises `AttributeError` before
rendering anything — the column set is never derived from the first item's
keys.  This theorem evaluates the code on that failing path for every item
list. -/
theorem formatters_crash_without_select (data : List Item) :
    output_table data none = ⟨"", some (.attributeError listKeysMsg)⟩ ∧
    output_csv data none = ⟨"", some (.attributeError listKeysMsg)⟩ ∧
    output_tsv data none = ⟨"", some (.attributeError listKeysMsg)⟩ ∧
    output_json data none = ⟨"", some (.attributeError listKeysMsg)⟩ :=
  ⟨rfl, rfl, rfl, rfl⟩

/-- The Aggregate Result of the spec's round-trip property. -/
def c5items : List Item :=
  [[("skuId", .vStr "A"), ("price", .vNum "1.5")],
   [("skuId", .vStr "B"), ("price", .vNum "2.25")]]

/-- Claim C5: feeding the two-item Aggregate Result through the CSV
formatter with selection `["skuId","price"]` prints exactly the three
lines `"skuId","price"` / `"A","1.5"` / `"B","2.25"`, and through the JSON
formatter prints the `json.dumps` rendering of exactly the input list: the
selected objects are equal to the input objects (each output object
contains exactly the selected keys), a round trip. -/
theorem csv_json_round_trip :
    output_csv c5items (some ["skuId", "price"]) =
      ⟨"\"skuId\",\"price\"\n\"A\",\"1.5\"\n\"B\",\"2.25\"\n", none⟩ ∧
    selectObjects c5items ["skuId", "price"] = .ok c5items ∧
    output_json c5items (some ["skuId", "price"]) =
      ⟨jsonDumps c5items ++ "\n", none⟩ := by
  refine ⟨by decide, by decide, by decide⟩

theorem lookupItem_error {x : Item} {y : String} {e : PyError}
    (h : lookupItem x y = .error e) : e = .keyError y := by
  unfold lookupItem at h
  cases hl : x.lookup y with
  | none => rw [hl] at h; exact (Except.error.inj h).symm
  | some v => rw [hl] at h; cases h

theorem exceptMap_error {α β : Type} {g : α → β} {ea : Except PyError α}
    {e : PyError} (h : ea.map g = .error e) : ea = .error e := by
  cases ea with
  | error e2 => cases h; rfl
  | ok a => cases h

theorem mapExcept_error_of_mem {α β : Type} (f : α → Except PyError β)
    {l : List α} {a : α} (ha : a ∈ l) {e : PyError} (hf : f a = .error e) :
    ∃ e2, mapExcept f l = .error e2 := by
  induction l with
  | nil => cases ha
  | cons b bs ih =>
    rcases List.mem_cons.mp ha with hh | hh
    · subst hh
      exact ⟨e, by simp [mapExcept, hf]⟩
    · cases hb : f b with
      | error eb => exact ⟨eb, by simp [mapExcept, hb]⟩
      | ok vb =>
        obtain ⟨e2, h2⟩ := ih hh
        exact ⟨e2, by simp [mapExcept, hb, h2]⟩

theorem mapExcept_error_mem {α β : Type} {f : α → Except PyError β}
    {l : List α} {e : PyError} (h : mapExcept f l = .error e) :
    ∃ a ∈ l, f a = .error e := by
  induction l with
  | nil => simp [mapExcept] at h
  | cons b bs ih =>
    cases hb : f b with
    | error eb =>
      simp only [mapExcept, hb] at h
      cases h
      exact ⟨b, List.mem_cons_self b bs, hb⟩
    | ok vb =>
      cases hbs : mapExcept f bs with
      | error e2 =>
        simp only [mapExcept, hb, hbs] at h
        cases h
        obtain ⟨a, ha, hfa⟩ := ih hbs
        exact ⟨a, List.mem_cons_of_mem b ha, hfa⟩
      | ok bs2 => simp [mapExcept, hb, hbs] at h

/-- If every error `g` can raise is a `KeyError` and `g` fails on some list
element, the whole comprehension raises a `KeyError`. -/
theorem mapExcept_keyError_of_mem {α β : Type} (g : α → Except PyError β)
    (hshape : ∀ a e, g a = .error e → ∃ k, e = .keyError k)
    {l : List α} {a : α} (ha : a ∈ l) {e : PyError} (hga : g a = .error e) :
    ∃ k, mapExcept g l = .error (.keyError k) := by
  obtain ⟨e2, h2⟩ := mapExcept_error_of_mem g ha hga
  obtain ⟨a2, _, hfa2⟩ := mapExcept_error_mem h2
  obtain ⟨k, hk⟩ := hshape a2 e2 hfa2
  exact ⟨k, by rw [h2, hk]⟩

theorem csvRow_error_iff (keys : List String) (a : Item) (e : PyError) :
    csvRow keys a = .error e ↔
      mapExcept (fun y => (lookupItem a y).map pyStr) keys = .error e := by
  unfold csvRow
  cases h : mapExcept (fun y => (lookupItem a y).map pyStr) keys <;> simp [h]

theorem tsvRow_error_iff (keys : List String) (a : Item) (e : PyError) :
    tsvRow keys a = .error e ↔
      mapExcept (fun y => (lookupItem a y).map pyStr) keys = .error e := by
  unfold tsvRow
  cases h : mapExcept (fun y => (lookupItem a y).map pyStr) keys <;> simp [h]

theorem selectObject_error_iff (keys : List String) (a : Item) (e : PyError) :
    selectObject a keys = .error e ↔
      mapExcept (fun y => (lookupItem a y).map (fun v => (y, v))) keys = .error e := by
  unfold selectObject
  cases h : mapExcept (fun y => (lookupItem a y).map (fun v => (y, v))) keys <;> simp [h]

/-- Any error of a per-key cell computation built on `lookupItem` is a
`KeyError` for that key. -/
theorem cell_error_shape {β : Type} (a : Item) (post : Value → β) :
    ∀ (y : String) (e : PyError),
      (lookupItem a y).map post = .error e → ∃ k, e = .keyError k :=
  fun y _ h => ⟨y, lookupItem_error (exceptMap_error h)⟩

/-- Claim C10 (implicit): a selection naming a column absent from some item
makes every formatter fail with a `KeyError` — no blank is substituted.
(The selection list must be non-empty to be truthy; an empty one takes the
`data.keys()` branch instead.) -/
theorem missing_column_is_keyerror (data : List Item) (keys : List String)
    (x : Item) (y : String) (hx : x ∈ data) (hy : y ∈ keys)
    (hmiss : x.lookup y = none) (hne : keys ≠ []) :
    (∃ k, (output_table data (some keys)).err = some (.keyError k)) ∧
    (∃ k, (output_csv data (some keys)).err = some (.keyError k)) ∧
    (∃ k, (output_tsv data (some keys)).err = some (.keyError k)) ∧
    (∃ k, (output_json data (some keys)).err = some (.keyError k)) := by
  have hkeys : getOutputKeys data (some keys) = .ok keys := by
    simp [getOutputKeys, hne]
  have hlook : lookupItem x y = .error (.keyError y) := by
    simp [lookupItem, hmiss]
  have hlookS : (lookupItem x y).map pyStr = .error (.keyError y) := by
    rw [hlook]; rfl
  have hlookP : (lookupItem x y).map (fun v => (y, v)) = .error (.keyError y) := by
    rw [hlook]; rfl
  refine ⟨?_, ?_, ?_, ?_⟩
  · -- output_table
    obtain ⟨k1, hk1⟩ := mapExcept_keyError_of_mem (fun y2 => lookupItem x y2)
      (fun y2 e h => ⟨y2, lookupItem_error h⟩) hy hlook
    obtain ⟨K, hK⟩ := mapExcept_keyError_of_mem
      (fun a => mapExcept (fun y2 => lookupItem a y2) keys)
      (fun a e h => by
        obtain ⟨y2, _, hy2⟩ := mapExcept_error_mem h
        exact ⟨y2, lookupItem_error hy2⟩)
      hx hk1
    exact ⟨K, by simp [output_table, hkeys, hK]⟩
  · -- output_csv
    obtain ⟨k1, hk1⟩ := mapExcept_keyError_of_mem
      (fun y2 => (lookupItem x y2).map pyStr) (cell_error_shape x pyStr) hy hlookS
    obtain ⟨K, hK⟩ := mapExcept_keyError_of_mem (csvRow keys)
      (fun a e h => by
        obtain ⟨y2, _, hy2⟩ := mapExcept_error_mem ((csvRow_error_iff keys a e).mp h)
        exact ⟨y2, lookupItem_error (exceptMap_error hy2)⟩)
      hx ((csvRow_error_iff keys x (.keyError k1)).mpr hk1)
    exact ⟨K, by simp [output_csv, hkeys, hK]⟩
  · -- output_tsv
    obtain ⟨k1, hk1⟩ := mapExcept_keyError_of_mem
      (fun y2 => (lookupItem x y2).map pyStr) (cell_error_shape x pyStr) hy hlookS
    obtain ⟨K, hK⟩ := mapExcept_keyError_of_mem (tsvRow keys)
      (fun a e h => by
        obtain ⟨y2, _, hy2⟩ := mapExcept_error_mem ((tsvRow_error_iff keys a e).mp h)
        exact ⟨y2, lookupItem_error (exceptMap_error hy2)⟩)
      hx ((tsvRow_error_iff keys x (.keyError k1)).mpr hk1)
    exact ⟨K, by simp [output_tsv, hkeys, hK]⟩
  · -- output_json
    obtain ⟨k1, hk1⟩ := mapExcept_keyError_of_mem
      (fun y2 => (lookupItem x y2).map (fun v => (y2, v)))
      (fun y2 e h => ⟨y2, lookupItem_error (exceptMap_error h)⟩) hy hlookP
    obtain ⟨K, hK⟩ := mapExcept_keyError_of_mem (fun a => selectObject a keys)
      (fun a e h => by
        obtain ⟨y2, _, hy2⟩ := mapExcept_error_mem ((selectObject_error_iff keys a e).mp h)
        exact ⟨y2, lookupItem_error (exceptMap_error hy2)⟩)
      hx ((selectObject_error_iff keys x (.keyError k1)).mpr hk1)
    exact ⟨K, by simp [output_json, selectObjects, hkeys, hK]⟩

theorem missing_column_is_keyerror_witness :
    ([("skuId", Value.vStr "A")] : Item) ∈ [[("skuId", Value.vStr "A")]] ∧
    "armRegionName" ∈ ["skuId", "armRegionName"] ∧
    ([("skuId", Value.vStr "A")] : Item).lookup "armRegionName" = none ∧
    (["skuId", "armRegionName"] : List String) ≠ [] ∧
    ((∃ k, (output_table [[("skuId", Value.vStr "A")]]
        (some ["skuId", "armRegionName"])).err = some (.keyError k)) ∧
     (∃ k, (output_csv [[("skuId", Value.vStr "A")]]
        (some ["skuId", "armRegionName"])).err = some (.keyError k)) ∧
     (∃ k, (output_tsv [[("skuId", Value.vStr "A")]]
        (some ["skuId", "armRegionName"])).err = some (.keyError k)) ∧
     (∃ k, (output_json [[("skuId", Value.vStr "A")]]
        (some ["skuId", "armRegionName"])).err = some (.keyError k))) :=
  ⟨by decide, by decide, by decide, by decide,
   missing_column_is_keyerror [[("skuId", Value.vStr "A")]]
     ["skuId", "armRegionName"] [("skuId", Value.vStr "A")] "armRegionName"
     (by decide) (by decide) (by decide) (by decide)⟩

/- ---------------------------------------------------------------------
   Claim about the Formatter Registry (C9)
--------------------------------------------------------------------- -/

/-- Claim C9: `find_outputters` exposes exactly the module's four
`output_`-prefixed functions, each under its name with the prefix stripped
(no function declares a `user_facing_name` attribute, so the fallback is
used for all of them); every `output_`-prefixed member is registered under
the name that conditional produces, and looking a registered name up
dispatches to exactly that formatter function. -/
theorem find_outputters_registry :
    find_outputters =
      [("csv", "output_csv"), ("json", "output_json"),
       ("table", "output_table"), ("tsv", "output_tsv")] ∧
    (∀ n ∈ moduleMembers, "output_".data.isPrefixOf n.data = true →
      ((match user_facing_name n with
        | some m => m
        | none => n.drop "output_".length), n) ∈ find_outputters) ∧
    dispatch_outputter "csv" = some output_csv ∧
    dispatch_outputter "json" = some output_json ∧
    dispatch_outputter "table" = some output_table ∧
    dispatch_outputter "tsv" = some output_tsv := by
  refine ⟨by decide, by decide, rfl, rfl, rfl, rfl⟩

end AzurePrices
